import Mathlib

/-!
Shallow embedding of `DefaultRemoteOpsChecker.UsingRemoteOps` from
`server/events/runtime/remote_ops_checker.go`.

The Go function reads `<project>/.terraform/terraform.tfstate`, validates the
backend block, reads `~/.terraformrc` for an API token, and queries the TFE
API (organization entitlements, then the workspace) to decide whether remote
operations are in use.  Every external effect (file reads, home-directory
resolution, HCL decoding, API responses) is supplied through an explicit
environment `Env`; the function itself is translated statement by statement.
Go runtime faults (nil pointer dereference, failed type assertion) are
modelled as an explicit `panic` outcome, distinct from returning an error.
-/

namespace RemoteOps

/-- A workspace entry of the statefile's backend config
(`{Name string; Prefix string}` in the Go anonymous struct; JSON decoding
leaves absent strings as `""`). -/
structure WorkspaceEntry where
  Name : String
  Prefix : String
deriving DecidableEq, Repr

/-- The `config` block of the statefile's backend
(`Hostname`, `Organization`, `Workspaces`, all pointers, i.e. nullable). -/
structure BackendConfig where
  Hostname : Option String
  Organization : Option String
  Workspaces : Option (List WorkspaceEntry)
deriving DecidableEq, Repr

/-- The `backend` block of the statefile (`Type *string`, `Config *struct`).
`Type` is a Lean keyword, so the Go field `Type` is named `BackendType`. -/
structure BackendBlock where
  BackendType : Option String
  Config : Option BackendConfig
deriving DecidableEq, Repr

/-- The parsed statefile (`Backend *struct`). -/
structure Statefile where
  Backend : Option BackendBlock
deriving DecidableEq, Repr

/-- The normalized remote-backend descriptor built by the validation closure
(Go's local `RemoteBackend` struct). -/
structure RemoteBackend where
  Hostname : String
  Organization : String
  WorkspaceName : String
  WorkspacePrefix : String
deriving DecidableEq, Repr

/-- Go's zero value `RemoteBackend{}` (all fields empty strings). -/
def RemoteBackend.zero : RemoteBackend :=
  { Hostname := "", Organization := "", WorkspaceName := "", WorkspacePrefix := "" }

/-- A generic HCL value found under a credentials key.  The Go code stores
`map[string]interface{}`; only whether the value is a string matters, because
the code performs the unchecked assertion `tokenGeneric.(string)`. -/
inductive HclValue where
  | str (s : String)
  | nonString
deriving DecidableEq, Repr

/-- Organization entitlements payload (`*tfe.Entitlements`); only the
`Operations` flag is consumed. -/
structure Entitlements where
  Operations : Bool
deriving DecidableEq, Repr

/-- A TFE workspace payload (`*tfe.Workspace`); only the `Operations` flag is
consumed. -/
structure TfeWorkspace where
  Operations : Bool
deriving DecidableEq, Repr

/-- Outcome of a TFE API call: transport/API error, a nil payload with nil
error, or a non-nil payload. -/
inductive ApiResponse (α : Type) where
  | apiError
  | nilPayload
  | ok (payload : α)
deriving DecidableEq, Repr

/-- Outcome of reading and JSON-unmarshalling the statefile:
`ioutil.ReadFile` may fail with `os.IsNotExist` or another I/O error, and
`json.Unmarshal` may fail. -/
inductive StateRead where
  | notExist
  | ioError
  | parseError
  | parsed (s : Statefile)
deriving DecidableEq, Repr

/-- Outcome of reading, `hcl.Parse`-ing and `hcl.DecodeObject`-ing the
`.terraformrc` file.  On success it yields the `credentials` mapping:
hostname → (key → value).  Go maps are modelled as association lists. -/
inductive RcRead where
  | ioError
  | parseError
  | decodeError
  | decoded (credentials : List (String × List (String × HclValue)))
deriving DecidableEq, Repr

/-- The external world of one invocation: file contents, home directory,
client construction success, and the two API oracles keyed the way the code
calls them (entitlements by organization; workspace by organization + name). -/
structure Env where
  stateRead : StateRead
  homeDir : Option String
  rcRead : RcRead
  clientOk : Bool
  entitlements : String → ApiResponse Entitlements
  readWorkspace : String → String → ApiResponse TfeWorkspace

/-- Errors returned by `UsingRemoteOps`, one constructor per `return false, err`
site in the source, carrying the data interpolated into the message. -/
inductive Err where
  | stateReadErr
  | stateParseErr
  | noConfigBlock
  | noOrganization
  | noWorkspaces
  | noNameOrPrefix
  | homeDirErr
  | rcReadErr
  | rcParseErr
  | rcDecodeErr
  | noCredentialsForHostname (hostname : String) (path : String)
  | noTokenKey (hostname : String) (path : String)
  | clientErr
  | entitlementsApiErr
  | nilEntitlements
  | workspaceApiErr
  | nilWorkspace
deriving DecidableEq, Repr

/-- Go's `%q` verb for the plain identifiers used here: the string in double
quotes. -/
def goQuote (s : String) : String := "\"" ++ s ++ "\""

/-- The message text of each error, as produced by `errors.New` /
`fmt.Errorf` / `errors.Wrap` in the source (wrap messages shown without the
wrapped cause). -/
def Err.message : Err → String
  | .stateReadErr => "reading statefile"
  | .stateParseErr => "parsing statefile"
  | .noConfigBlock => "statefile backend is of type \"remote\" but has no backend.config block"
  | .noOrganization => "statefile backend is of type \"remote\" but has no organization set"
  | .noWorkspaces => "statefile backend is of type \"remote\" but has no workspaces set"
  | .noNameOrPrefix => "statefile backend is of type \"remote\" but workspace has neither name nor prefix set"
  | .homeDirErr => "retrieving token from .terraformrc file"
  | .rcReadErr => "retrieving token from .terraformrc file"
  | .rcParseErr => "parsing .terraformrc file to retrieve TFE token"
  | .rcDecodeErr => "decoding .terraformrc file to retrieve TFE token"
  | .noCredentialsForHostname hostname path =>
      "found no credentials config for hostname " ++ goQuote hostname ++ " in " ++ goQuote path
  | .noTokenKey hostname path =>
      "found no token key in config for hostname " ++ goQuote hostname ++ " in " ++ goQuote path
  | .clientErr => "creating TFE API client to determine if using remote ops"
  | .entitlementsApiErr => "calling TFE API to determine if using remote ops"
  | .nilEntitlements => "got nil entitlements calling TFE API to determine if using remote ops"
  | .workspaceApiErr => "calling TFE API to determine if using remote ops"
  | .nilWorkspace => "got nil workspace calling TFE API to determine if using remote ops"

/-- How one invocation of `UsingRemoteOps` ends: a normal `(bool, nil)`
return, an error return, or a Go runtime panic. -/
inductive RunResult where
  | ok (b : Bool)
  | err (e : Err)
  | panic (msg : String)
deriving DecidableEq, Repr

/-- A network call made to the TFE API during the run, in order. -/
inductive ApiCall where
  | entitlementsCall (organization : String)
  | workspaceRead (organization : String) (workspaceName : String)
deriving DecidableEq, Repr

/-- The statefile-validation closure (the anonymous
`func(s Statefile) (bool, RemoteBackend, error)` in the source).  Its three
Go results are bundled in `result`, and the nil-pointer dereference of
`*backend.Type` when `Type` is absent is the `panicNilType` outcome. -/
inductive BackendCheck where
  | panicNilType
  | result (isRemote : Bool) (backend : RemoteBackend) (e : Option Err)
deriving DecidableEq, Repr

/-- Translation of the validation closure, line by line:
no backend block → not remote; `*backend.Type` dereferenced (panics when nil);
non-"remote" type → not remote; then missing config / organization /
workspaces / name-and-prefix each produce an error; otherwise the descriptor
is built with hostname defaulted to `"app.terraform.io"`. -/
def validateBackend (s : Statefile) : BackendCheck :=
  match s.Backend with
  | none => .result false RemoteBackend.zero none
  | some backend =>
    match backend.BackendType with
    | none => .panicNilType
    | some ty =>
      if ty ≠ "remote" then
        .result false RemoteBackend.zero none
      else
        match backend.Config with
        | none => .result false RemoteBackend.zero (some .noConfigBlock)
        | some config =>
          match config.Organization with
          | none => .result false RemoteBackend.zero (some .noOrganization)
          | some org =>
            match config.Workspaces with
            | none => .result false RemoteBackend.zero (some .noWorkspaces)
            | some workspaces =>
              match workspaces with
              | [] => .result false RemoteBackend.zero (some .noWorkspaces)
              | workspace :: _ =>
                if workspace.Name = "" ∧ workspace.Prefix = "" then
                  .result false RemoteBackend.zero (some .noNameOrPrefix)
                else
                  let hostname :=
                    match config.Hostname with
                    | none => "app.terraform.io"
                    | some h => h
                  .result true
                    { Hostname := hostname
                      Organization := org
                      WorkspaceName := workspace.Name
                      WorkspacePrefix := workspace.Prefix } none

/-- The remainder of `UsingRemoteOps` after a remote backend was resolved:
read `~/.terraformrc`, extract the token for the backend's hostname (the
unchecked `tokenGeneric.(string)` assertion panics on a non-string value),
build the client, query entitlements, and, when entitled, query the
workspace named `prefix + workspace` (when a prefix is set) or the
configured name.  Also returns the list of API calls made. -/
def checkRemote (env : Env) (workspace : String) (backend : RemoteBackend) :
    RunResult × List ApiCall :=
  match env.homeDir with
  | none => (.err .homeDirErr, [])
  | some home =>
    let rcFilePath := home ++ "/.terraformrc"
    match env.rcRead with
    | .ioError => (.err .rcReadErr, [])
    | .parseError => (.err .rcParseErr, [])
    | .decodeError => (.err .rcDecodeErr, [])
    | .decoded credentials =>
      match credentials.lookup backend.Hostname with
      | none => (.err (.noCredentialsForHostname backend.Hostname rcFilePath), [])
      | some hostnameConf =>
        match hostnameConf.lookup "token" with
        | none => (.err (.noTokenKey backend.Hostname rcFilePath), [])
        | some tokenGeneric =>
          match tokenGeneric with
          | .nonString =>
              (.panic "interface conversion: interface \x7b\x7d is not string", [])
          | .str _token =>
            if env.clientOk = false then
              (.err .clientErr, [])
            else
              match env.entitlements backend.Organization with
              | .apiError =>
                  (.err .entitlementsApiErr, [.entitlementsCall backend.Organization])
              | .nilPayload =>
                  (.err .nilEntitlements, [.entitlementsCall backend.Organization])
              | .ok entitlements =>
                if entitlements.Operations = false then
                  (.ok false, [.entitlementsCall backend.Organization])
                else
                  let tfeWorkspaceName := backend.WorkspaceName
                  let tfeWorkspaceName :=
                    if backend.WorkspacePrefix ≠ "" then
                      backend.WorkspacePrefix ++ workspace
                    else tfeWorkspaceName
                  match env.readWorkspace backend.Organization tfeWorkspaceName with
                  | .apiError =>
                      (.err .workspaceApiErr,
                        [.entitlementsCall backend.Organization,
                         .workspaceRead backend.Organization tfeWorkspaceName])
                  | .nilPayload =>
                      (.err .nilWorkspace,
                        [.entitlementsCall backend.Organization,
                         .workspaceRead backend.Organization tfeWorkspaceName])
                  | .ok tfeWorkspace =>
                      (.ok tfeWorkspace.Operations,
                        [.entitlementsCall backend.Organization,
                         .workspaceRead backend.Organization tfeWorkspaceName])

/-- `UsingRemoteOps(log, workspace, projectAbsPath)`.  A missing statefile is
a definitive `(false, nil)`; a read or unmarshal failure is an error; then the
validation closure runs, its error (if any) is returned, a non-remote backend
gives `(false, nil)`, and a resolved remote backend continues with
`checkRemote`. -/
def usingRemoteOps (env : Env) (workspace : String) : RunResult × List ApiCall :=
  match env.stateRead with
  | .notExist => (.ok false, [])
  | .ioError => (.err .stateReadErr, [])
  | .parseError => (.err .stateParseErr, [])
  | .parsed statefile =>
    match validateBackend statefile with
    | .panicNilType =>
        (.panic "runtime error: invalid memory address or nil pointer dereference", [])
    | .result isRemote backend e =>
      match e with
      | some e => (.err e, [])
      | none =>
        if isRemote = false then (.ok false, [])
        else checkRemote env workspace backend

/-- The remote-backend descriptor the run resolves, when it resolves one:
the statefile parsed and the validation closure returned
`(true, backend, nil)`. -/
def resolvedBackend (env : Env) : Option RemoteBackend :=
  match env.stateRead with
  | .parsed statefile =>
    match validateBackend statefile with
    | .result true backend none => some backend
    | _ => none
  | _ => none

/-- Convenience builder for a statefile with a `remote` backend for the
organization `"acme"`. -/
def remoteState (host : Option String) (ws : List WorkspaceEntry) : Statefile :=
  { Backend := some
      { BackendType := some "remote"
        Config := some
          { Hostname := host, Organization := some "acme", Workspaces := some ws } } }

/-- A decoded `.terraformrc` with a string token for the default hostname. -/
def goodCreds : List (String × List (String × HclValue)) :=
  [("app.terraform.io", [("token", .str "secret")])]

/-- Environment where everything succeeds: remote backend with workspace
prefix `"my-"`, valid token, entitled organization, workspace with remote
operations enabled. -/
def envEntitled : Env :=
  { stateRead := .parsed (remoteState none [{ Name := "", Prefix := "my-" }])
    homeDir := some "/home/user"
    rcRead := .decoded goodCreds
    clientOk := true
    entitlements := fun _ => .ok { Operations := true }
    readWorkspace := fun _ _ => .ok { Operations := true } }

/-- Like `envEntitled` but the organization lacks the operations
entitlement. -/
def envNotEntitled : Env :=
  { envEntitled with entitlements := fun _ => .ok { Operations := false } }

section Helpers

/-- A run that resolved a remote backend continues exactly as `checkRemote`
on that backend. -/
theorem usingRemoteOps_resolved (env : Env) (workspace : String) (b : RemoteBackend)
    (hres : resolvedBackend env = some b) :
    usingRemoteOps env workspace = checkRemote env workspace b := by
  unfold resolvedBackend at hres
  unfold usingRemoteOps
  cases hs : env.stateRead <;> rw [hs] at hres <;> simp_all
  case parsed s =>
    cases hv : validateBackend s <;> rw [hv] at hres <;> simp_all
    case result isRemote backend e =>
      cases isRemote <;> cases e <;> simp_all

/-- A run makes API calls only after resolving a remote backend. -/
theorem usingRemoteOps_trace (env : Env) (workspace : String) :
    (usingRemoteOps env workspace).2 = [] ∨
    ∃ b, resolvedBackend env = some b ∧
      usingRemoteOps env workspace = checkRemote env workspace b := by
  unfold usingRemoteOps resolvedBackend
  cases hs : env.stateRead <;> simp
  case parsed s =>
    cases hv : validateBackend s <;> simp
    case result isRemote backend e =>
      cases isRemote <;> cases e <;> simp

/-- Every workspace-read call made by `checkRemote` targets the backend's
organization and the effective workspace name computed from the prefix (when
non-empty) or the configured name. -/
theorem checkRemote_workspaceRead_mem (env : Env) (workspace : String)
    (b : RemoteBackend) (org name : String)
    (hmem : ApiCall.workspaceRead org name ∈ (checkRemote env workspace b).2) :
    org = b.Organization ∧
    name = (if b.WorkspacePrefix ≠ "" then b.WorkspacePrefix ++ workspace
            else b.WorkspaceName) := by
  simp only [checkRemote] at hmem
  repeat' split at hmem
  all_goals simp_all

end Helpers

section Claims

/-- C1: for every resolved remote backend, the remote workspace identifier
queried against the API is the workspace prefix concatenated with the local
workspace name when the prefix is non-empty, and otherwise the configured
workspace name. -/
theorem effective_workspace_identifier (env : Env) (workspace org name : String)
    (hmem : ApiCall.workspaceRead org name ∈ (usingRemoteOps env workspace).2) :
    ∃ b, resolvedBackend env = some b ∧
      (b.WorkspacePrefix ≠ "" → name = b.WorkspacePrefix ++ workspace) ∧
      (b.WorkspacePrefix = "" → name = b.WorkspaceName) := by
  rcases usingRemoteOps_trace env workspace with htr | ⟨b, hres, heq⟩
  · rw [htr] at hmem
    simp at hmem
  · rw [heq] at hmem
    obtain ⟨-, hname⟩ := checkRemote_workspaceRead_mem env workspace b org name hmem
    refine ⟨b, hres, ?_, ?_⟩ <;> intro hp <;> simp [hp] at hname <;> exact hname

/-- C1 witness: with prefix `"my-"` and local workspace `"prod"` the API is
queried for workspace `"my-prod"`. -/
theorem effective_workspace_identifier_witness :
    ApiCall.workspaceRead "acme" "my-prod" ∈ (usingRemoteOps envEntitled "prod").2 ∧
    ∃ b, resolvedBackend envEntitled = some b ∧
      (b.WorkspacePrefix ≠ "" → "my-prod" = b.WorkspacePrefix ++ "prod") ∧
      (b.WorkspacePrefix = "" → "my-prod" = b.WorkspaceName) :=
  ⟨by decide, effective_workspace_identifier envEntitled "prod" "acme" "my-prod" (by decide)⟩

/-- C2: whenever the organization-entitlements query is made and answers with
a non-nil payload whose `Operations` flag is false, the run returns
`(false, nil)` and never queries the workspace API. -/
theorem not_entitled_short_circuits (env : Env) (workspace org : String)
    (e : Entitlements)
    (hmem : ApiCall.entitlementsCall org ∈ (usingRemoteOps env workspace).2)
    (hresp : env.entitlements org = .ok e)
    (hops : e.Operations = false) :
    (usingRemoteOps env workspace).1 = .ok false ∧
    ∀ o n, ApiCall.workspaceRead o n ∉ (usingRemoteOps env workspace).2 := by
  rcases usingRemoteOps_trace env workspace with htr | ⟨b, -, heq⟩
  · rw [htr] at hmem
    simp at hmem
  · rw [heq] at hmem ⊢
    have hck : checkRemote env workspace b = (.ok false, [.entitlementsCall b.Organization]) := by
      simp only [checkRemote] at hmem ⊢
      repeat' split at hmem
      all_goals simp_all
    rw [hck]
    simp

/-- C2 witness: an entitled-looking setup whose entitlements payload has
`Operations = false` yields `(false, nil)` with no workspace-read call. -/
theorem not_entitled_short_circuits_witness :
    (ApiCall.entitlementsCall "acme" ∈ (usingRemoteOps envNotEntitled "prod").2 ∧
     envNotEntitled.entitlements "acme" = .ok { Operations := false } ∧
     Entitlements.Operations { Operations := false } = false) ∧
    ((usingRemoteOps envNotEntitled "prod").1 = .ok false ∧
     ∀ o n, ApiCall.workspaceRead o n ∉ (usingRemoteOps envNotEntitled "prod").2) :=
  ⟨⟨by decide, rfl, rfl⟩,
   not_entitled_short_circuits envNotEntitled "prod" "acme" { Operations := false }
     (by decide) rfl rfl⟩

/-- Environment whose decoded credentials hold a non-string token value for
the default hostname, with an otherwise valid remote backend. -/
def envNonStringToken : Env :=
  { stateRead := .parsed (remoteState none [{ Name := "ws1", Prefix := "" }])
    homeDir := some "/home/user"
    rcRead := .decoded [("app.terraform.io", [("token", .nonString)])]
    clientOk := true
    entitlements := fun _ => .ok { Operations := true }
    readWorkspace := fun _ _ => .ok { Operations := true } }

/-- C3: with a non-string token value the code executes the unchecked type
assertion `tokenGeneric.(string)` and panics; it does not return a
TypeError-style error value.  The run ends in the panic outcome and in no
error outcome. -/
theorem nonstring_token_panics :
    (usingRemoteOps envNonStringToken "default").1 =
      .panic "interface conversion: interface \x7b\x7d is not string" ∧
    ∀ e, (usingRemoteOps envNonStringToken "default").1 ≠ .err e := by
  refine ⟨rfl, ?_⟩
  intro e h
  rw [show (usingRemoteOps envNonStringToken "default").1 =
      .panic "interface conversion: interface \x7b\x7d is not string" from rfl] at h
  exact RunResult.noConfusion h

/-- Statefile whose backend block is present but whose `type` field is
absent (`{"backend": {}}`). -/
def stateNilType : Statefile :=
  { Backend := some { BackendType := none, Config := none } }

/-- Environment whose statefile has a backend block with no `type` field;
everything downstream is healthy. -/
def envNilType : Env :=
  { stateRead := .parsed stateNilType
    homeDir := some "/home/user"
    rcRead := .decoded goodCreds
    clientOk := true
    entitlements := fun _ => .ok { Operations := true }
    readWorkspace := fun _ _ => .ok { Operations := true } }

/-- C4: a backend block with an absent `type` makes the code dereference the
nil `backend.Type` pointer, so the run panics instead of returning
`(false, nil)`. -/
theorem nil_backend_type_panics :
    (usingRemoteOps envNilType "default").1 =
      .panic "runtime error: invalid memory address or nil pointer dereference" ∧
    (usingRemoteOps envNilType "default").1 ≠ .ok false := by
  refine ⟨rfl, ?_⟩
  intro h
  rw [show (usingRemoteOps envNilType "default").1 =
      .panic "runtime error: invalid memory address or nil pointer dereference" from rfl] at h
  exact RunResult.noConfusion h

/-- Statefile with a backend block whose `type` is absent but whose config
block is populated, used to exhibit a terminating path outside the claimed
enumeration. -/
def stateNilTypeWithConfig : Statefile :=
  { Backend := some
      { BackendType := none
        Config := some
          { Hostname := none, Organization := some "acme"
            Workspaces := some [{ Name := "ws1", Prefix := "" }] } } }

/-- Environment for the C5 counterexample path: backend `type` absent,
everything else healthy. -/
def envOutsideEnumeration : Env :=
  { stateRead := .parsed stateNilTypeWithConfig
    homeDir := some "/home/user"
    rcRead := .decoded goodCreds
    clientOk := true
    entitlements := fun _ => .ok { Operations := true }
    readWorkspace := fun _ _ => .ok { Operations := true } }

/-- C5: the code has a terminating path that neither returns an error nor a
boolean: with a backend block whose `type` is absent, the run panics, so the
claimed enumeration of terminating paths (four `(false, nil)` cases, errors,
or the workspace's `Operations` flag) does not cover the code. -/
theorem terminating_path_outside_enumeration :
    (∀ b, (usingRemoteOps envOutsideEnumeration "default").1 ≠ .ok b) ∧
    (∀ e, (usingRemoteOps envOutsideEnumeration "default").1 ≠ .err e) ∧
    (usingRemoteOps envOutsideEnumeration "default").1 =
      .panic "runtime error: invalid memory address or nil pointer dereference" := by
  refine ⟨?_, ?_, rfl⟩ <;> intro x h <;>
    rw [show (usingRemoteOps envOutsideEnumeration "default").1 =
        .panic "runtime error: invalid memory address or nil pointer dereference" from rfl] at h <;>
    exact RunResult.noConfusion h

/-- The `config` block with no organization, used for the C6 witness. -/
def configMissingOrg : BackendConfig :=
  { Hostname := none, Organization := none, Workspaces := none }

/-- A `remote` backend block whose config lacks the organization. -/
def bbMissingOrg : BackendBlock :=
  { BackendType := some "remote", Config := some configMissingOrg }

/-- Statefile with a `remote` backend but no organization. -/
def stateMissingOrg : Statefile := { Backend := some bbMissingOrg }

/-- Environment whose statefile has a `remote` backend missing its
organization. -/
def envMissingOrg : Env := { envEntitled with stateRead := .parsed stateMissingOrg }

/-- C6: a `remote` backend with a missing config block, missing organization,
absent or empty workspaces, or a first workspace entry with neither name nor
prefix, makes the run return one of the four descriptive configuration
errors — never a silent `(false, nil)`. -/
theorem remote_config_errors (env : Env) (workspace : String)
    (s : Statefile) (bb : BackendBlock)
    (hs : env.stateRead = .parsed s) (hb : s.Backend = some bb)
    (ht : bb.BackendType = some "remote")
    (hmiss : bb.Config = none ∨
      ∃ c, bb.Config = some c ∧
        (c.Organization = none ∨
         c.Workspaces = none ∨ c.Workspaces = some [] ∨
         ∃ w t, c.Workspaces = some (w :: t) ∧ w.Name = "" ∧ w.Prefix = "")) :
    ∃ e, usingRemoteOps env workspace = (.err e, []) ∧
      e ∈ [Err.noConfigBlock, Err.noOrganization, Err.noWorkspaces, Err.noNameOrPrefix] := by
  have hval : ∃ e, validateBackend s = .result false RemoteBackend.zero (some e) ∧
      e ∈ [Err.noConfigBlock, Err.noOrganization, Err.noWorkspaces, Err.noNameOrPrefix] := by
    unfold validateBackend
    simp only [hb, ht]
    rcases hmiss with hc | ⟨c, hc, hrest⟩
    · exact ⟨.noConfigBlock, by simp [hc], by simp⟩
    · rcases hrest with ho | hw | hw | ⟨w, t, hw, hn, hp⟩
      · exact ⟨.noOrganization, by simp [hc, ho], by simp⟩
      · cases horg : c.Organization with
        | none => exact ⟨.noOrganization, by simp [hc, horg], by simp⟩
        | some org => exact ⟨.noWorkspaces, by simp [hc, horg, hw], by simp⟩
      · cases horg : c.Organization with
        | none => exact ⟨.noOrganization, by simp [hc, horg], by simp⟩
        | some org => exact ⟨.noWorkspaces, by simp [hc, horg, hw], by simp⟩
      · cases horg : c.Organization with
        | none => exact ⟨.noOrganization, by simp [hc, horg], by simp⟩
        | some org => exact ⟨.noNameOrPrefix, by simp [hc, horg, hw, hn, hp], by simp⟩
  obtain ⟨e, hv, hemem⟩ := hval
  refine ⟨e, ?_, hemem⟩
  unfold usingRemoteOps
  rw [hs]
  simp [hv]

/-- C6 witness: a `remote` backend with no organization set errs with one of
the configuration errors. -/
theorem remote_config_errors_witness :
    (envMissingOrg.stateRead = .parsed stateMissingOrg ∧
     stateMissingOrg.Backend = some bbMissingOrg ∧
     bbMissingOrg.BackendType = some "remote") ∧
    ∃ e, usingRemoteOps envMissingOrg "default" = (.err e, []) ∧
      e ∈ [Err.noConfigBlock, Err.noOrganization, Err.noWorkspaces, Err.noNameOrPrefix] :=
  ⟨⟨rfl, rfl, rfl⟩,
   remote_config_errors envMissingOrg "default" stateMissingOrg bbMissingOrg rfl rfl rfl
     (Or.inr ⟨configMissingOrg, rfl, Or.inl rfl⟩)⟩

/-- Environment with a resolved remote backend but an empty credentials
mapping. -/
def envNoHost : Env := { envEntitled with rcRead := .decoded [] }

/-- The backend descriptor `envEntitled`'s statefile resolves to. -/
def bDefault : RemoteBackend :=
  { Hostname := "app.terraform.io", Organization := "acme"
    WorkspaceName := "", WorkspacePrefix := "my-" }

/-- C7: a decoded credentials file with no entry for the resolved hostname
errs naming the hostname and the `.terraformrc` path; an entry without a
`token` key errs with a different message naming the same hostname and path;
and the two messages always differ. -/
theorem credentials_errors_distinct (env : Env) (workspace home : String)
    (b : RemoteBackend) (credentials : List (String × List (String × HclValue)))
    (hres : resolvedBackend env = some b)
    (hh : env.homeDir = some home)
    (hrc : env.rcRead = .decoded credentials) :
    (credentials.lookup b.Hostname = none →
      usingRemoteOps env workspace =
        (.err (.noCredentialsForHostname b.Hostname (home ++ "/.terraformrc")), [])) ∧
    (∀ conf, credentials.lookup b.Hostname = some conf → conf.lookup "token" = none →
      usingRemoteOps env workspace =
        (.err (.noTokenKey b.Hostname (home ++ "/.terraformrc")), [])) ∧
    (∀ h p, (Err.noCredentialsForHostname h p).message ≠ (Err.noTokenKey h p).message) := by
  rw [usingRemoteOps_resolved env workspace b hres]
  refine ⟨?_, ?_, ?_⟩
  · intro hlook
    simp [checkRemote, hh, hrc, hlook]
  · intro conf hlook htok
    simp [checkRemote, hh, hrc, hlook, htok]
  · intro h p heq
    have hl := congrArg String.length heq
    have l1 : ("found no credentials config for hostname ").length = 41 := rfl
    have l2 : ("found no token key in config for hostname ").length = 42 := rfl
    have l3 : (" in ").length = 4 := rfl
    have l4 : ("\"").length = 1 := rfl
    simp only [Err.message, goQuote, String.length_append, l1, l2, l3, l4] at hl
    omega

/-- C7 witness: with an empty credentials mapping the run errs naming
`"app.terraform.io"` and `"/home/user/.terraformrc"`, and the two
credential-lookup error messages differ. -/
theorem credentials_errors_distinct_witness :
    (resolvedBackend envNoHost = some bDefault ∧
     envNoHost.homeDir = some "/home/user" ∧
     envNoHost.rcRead = .decoded []) ∧
    (([] : List (String × List (String × HclValue))).lookup bDefault.Hostname = none →
      usingRemoteOps envNoHost "prod" =
        (.err (.noCredentialsForHostname bDefault.Hostname ("/home/user" ++ "/.terraformrc")), [])) ∧
    (∀ conf, ([] : List (String × List (String × HclValue))).lookup bDefault.Hostname = some conf →
      conf.lookup "token" = none →
      usingRemoteOps envNoHost "prod" =
        (.err (.noTokenKey bDefault.Hostname ("/home/user" ++ "/.terraformrc")), [])) ∧
    (∀ h p, (Err.noCredentialsForHostname h p).message ≠ (Err.noTokenKey h p).message) :=
  ⟨⟨rfl, rfl, rfl⟩,
   credentials_errors_distinct envNoHost "prod" "/home/user" bDefault [] rfl rfl rfl⟩

/-- C8: a remote backend config with no hostname resolves to the descriptor
hostname `"app.terraform.io"`, and that hostname is the key used to look up
credentials (exhibited by the lookup-failure error naming it). -/
theorem hostname_defaults (env : Env) (workspace : String) (s : Statefile)
    (bb : BackendBlock) (c : BackendConfig) (rb : RemoteBackend)
    (hs : env.stateRead = .parsed s) (hb : s.Backend = some bb)
    (hc : bb.Config = some c) (hhost : c.Hostname = none)
    (hres : resolvedBackend env = some rb) :
    rb.Hostname = "app.terraform.io" ∧
    ∀ home credentials, env.homeDir = some home → env.rcRead = .decoded credentials →
      credentials.lookup "app.terraform.io" = none →
      usingRemoteOps env workspace =
        (.err (.noCredentialsForHostname "app.terraform.io" (home ++ "/.terraformrc")), []) := by
  have hval : validateBackend s = .result true rb none := by
    have hres' := hres
    unfold resolvedBackend at hres'
    simp only [hs] at hres'
    split at hres' <;> simp_all
  have hrb : rb.Hostname = "app.terraform.io" := by
    unfold validateBackend at hval
    simp only [hb, hc, hhost] at hval
    repeat' split at hval
    all_goals try simp_all
    all_goals rw [← hval]
  refine ⟨hrb, ?_⟩
  intro home credentials hh hrc hlook
  rw [usingRemoteOps_resolved env workspace rb hres]
  simp [checkRemote, hh, hrc, hrb, hlook]

/-- The backend config of `envEntitled`'s statefile (no hostname set). -/
def configNoHost : BackendConfig :=
  { Hostname := none, Organization := some "acme"
    Workspaces := some [{ Name := "", Prefix := "my-" }] }

/-- The backend block of `envEntitled`'s statefile. -/
def bbNoHost : BackendBlock :=
  { BackendType := some "remote", Config := some configNoHost }

/-- C8 witness: `envNoHost`'s config has no hostname; the descriptor gets
`"app.terraform.io"` and the (empty) credentials are probed under that key. -/
theorem hostname_defaults_witness :
    (envNoHost.stateRead = .parsed { Backend := some bbNoHost } ∧
     Statefile.Backend { Backend := some bbNoHost } = some bbNoHost ∧
     bbNoHost.Config = some configNoHost ∧
     configNoHost.Hostname = none ∧
     resolvedBackend envNoHost = some bDefault) ∧
    (bDefault.Hostname = "app.terraform.io" ∧
     ∀ home credentials, envNoHost.homeDir = some home →
       envNoHost.rcRead = .decoded credentials →
       credentials.lookup "app.terraform.io" = none →
       usingRemoteOps envNoHost "prod" =
         (.err (.noCredentialsForHostname "app.terraform.io" (home ++ "/.terraformrc")), [])) :=
  ⟨⟨rfl, rfl, rfl, rfl, rfl⟩,
   hostname_defaults envNoHost "prod" { Backend := some bbNoHost } bbNoHost configNoHost
     bDefault rfl rfl rfl rfl rfl⟩

/-- Replacing the `stateRead` field leaves `checkRemote` unchanged: the
credential and API stages never look at the statefile again. -/
theorem checkRemote_stateRead_irrel (env : Env) (sr : StateRead) (workspace : String)
    (b : RemoteBackend) :
    checkRemote { env with stateRead := sr } workspace b = checkRemote env workspace b := rfl

/-- C9: the run depends only on the first workspace entry: two statefiles
that agree everywhere except in workspace entries after the first produce,
under identical external conditions, the same result and the same API
calls. -/
theorem only_first_workspace_entry_matters (env : Env) (workspace : String)
    (s1 s2 : Statefile) (b1 b2 : BackendBlock) (c1 c2 : BackendConfig)
    (w : WorkspaceEntry) (t1 t2 : List WorkspaceEntry)
    (hb1 : s1.Backend = some b1) (hb2 : s2.Backend = some b2)
    (hty : b1.BackendType = b2.BackendType)
    (hc1 : b1.Config = some c1) (hc2 : b2.Config = some c2)
    (hhost : c1.Hostname = c2.Hostname) (horg : c1.Organization = c2.Organization)
    (hw1 : c1.Workspaces = some (w :: t1)) (hw2 : c2.Workspaces = some (w :: t2)) :
    usingRemoteOps { env with stateRead := .parsed s1 } workspace =
    usingRemoteOps { env with stateRead := .parsed s2 } workspace := by
  have hv : validateBackend s1 = validateBackend s2 := by
    unfold validateBackend
    simp only [hb1, hb2, hty, hc1, hc2, hhost, horg, hw1, hw2]
  simp only [usingRemoteOps, checkRemote_stateRead_irrel]
  rw [hv]

/-- Statefile with a single workspace entry. -/
def s1Base : Statefile := remoteState none [{ Name := "", Prefix := "my-" }]

/-- Statefile identical to `s1Base` except for an extra workspace entry after
the first. -/
def s2Extra : Statefile :=
  remoteState none [{ Name := "", Prefix := "my-" }, { Name := "other", Prefix := "" }]

/-- C9 witness: adding a second workspace entry changes nothing. -/
theorem only_first_workspace_entry_matters_witness :
    (s1Base.Backend = some { BackendType := some "remote", Config := some configNoHost } ∧
     s2Extra.Backend = some
       { BackendType := some "remote"
         Config := some
           { Hostname := none, Organization := some "acme"
             Workspaces := some [{ Name := "", Prefix := "my-" },
                                 { Name := "other", Prefix := "" }] } }) ∧
    usingRemoteOps { envEntitled with stateRead := .parsed s1Base } "prod" =
      usingRemoteOps { envEntitled with stateRead := .parsed s2Extra } "prod" :=
  ⟨⟨rfl, rfl⟩,
   only_first_workspace_entry_matters envEntitled "prod" s1Base s2Extra
     { BackendType := some "remote", Config := some configNoHost }
     { BackendType := some "remote"
       Config := some
         { Hostname := none, Organization := some "acme"
           Workspaces := some [{ Name := "", Prefix := "my-" },
                               { Name := "other", Prefix := "" }] } }
     configNoHost
     { Hostname := none, Organization := some "acme"
       Workspaces := some [{ Name := "", Prefix := "my-" },
                           { Name := "other", Prefix := "" }] }
     { Name := "", Prefix := "my-" } [] [{ Name := "other", Prefix := "" }]
     rfl rfl rfl rfl rfl rfl rfl rfl rfl⟩

/-- Environment whose first workspace entry has both an exact name and a
prefix. -/
def envBoth : Env :=
  { envEntitled with
      stateRead := .parsed (remoteState none [{ Name := "exact", Prefix := "my-" }]) }

/-- The backend descriptor `envBoth` resolves to. -/
def bBoth : RemoteBackend :=
  { Hostname := "app.terraform.io", Organization := "acme"
    WorkspaceName := "exact", WorkspacePrefix := "my-" }

/-- C10: when the first workspace entry carries both a non-empty name and a
non-empty prefix, every workspace query uses the prefix concatenated with the
local workspace name; the configured exact name is ignored. -/
theorem workspace_naming_precedence (env : Env) (workspace org name : String)
    (b : RemoteBackend)
    (hres : resolvedBackend env = some b)
    (hn : b.WorkspaceName ≠ "") (hp : b.WorkspacePrefix ≠ "")
    (hmem : ApiCall.workspaceRead org name ∈ (usingRemoteOps env workspace).2) :
    name = b.WorkspacePrefix ++ workspace := by
  rw [usingRemoteOps_resolved env workspace b hres] at hmem
  obtain ⟨-, hname⟩ := checkRemote_workspaceRead_mem env workspace b org name hmem
  simpa [hp] using hname

/-- C10 witness: name `"exact"` plus prefix `"my-"` and local workspace
`"prod"` query `"my-prod"`, not `"exact"`. -/
theorem workspace_naming_precedence_witness :
    (resolvedBackend envBoth = some bBoth ∧
     bBoth.WorkspaceName ≠ "" ∧ bBoth.WorkspacePrefix ≠ "" ∧
     ApiCall.workspaceRead "acme" "my-prod" ∈ (usingRemoteOps envBoth "prod").2) ∧
    "my-prod" = bBoth.WorkspacePrefix ++ "prod" :=
  ⟨⟨rfl, by decide, by decide, by decide⟩,
   workspace_naming_precedence envBoth "prod" "acme" "my-prod" bBoth rfl
     (by decide) (by decide) (by decide)⟩

end Claims

end RemoteOps
